import Mathlib

/-
  Verification development for the StudyBuddy revision app
  (src/studyBuddy.jsx).  The definitions below are a shallow embedding of
  the orchestration layer: the quiz engine (isQuizReady, handleGenerate,
  handleAnswerChange, handleSubmit), the structured-generation retry loop
  (fetchQuiz / fetchChatResponse), the chat session manager
  (handleSendMessage) and the external-tool gating of the context
  assembler (useGoogleSearch).  JavaScript strings are modelled by Lean
  String; JS string helpers (toLowerCase, toUpperCase, trim, includes,
  substring) are re-implemented over character lists so that all
  definitions evaluate inside the kernel.  Asynchronous network calls are
  modelled by an oracle giving each attempt's outcome; a JS throw is
  modelled by Except.error.
-/

-- ---------------------------------------------------------------------
-- JS string helpers (semantics of toLowerCase / toUpperCase / trim /
-- includes / substring(0, n) for the character sets used by the app)
-- ---------------------------------------------------------------------

/-- JS String.prototype.toLowerCase, as a per-character map. -/
def jsToLower (s : String) : String := String.mk (s.data.map Char.toLower)

/-- JS String.prototype.toUpperCase, as a per-character map. -/
def jsToUpper (s : String) : String := String.mk (s.data.map Char.toUpper)

/-- JS String.prototype.trim: drop leading and trailing whitespace. -/
def jsTrim (s : String) : String :=
  String.mk (((s.data.dropWhile Char.isWhitespace).reverse.dropWhile Char.isWhitespace).reverse)

/-- Pattern pat occurs as a contiguous run inside l (JS String.prototype.includes on char lists). -/
def containsSeq (pat : List Char) : List Char → Bool
  | [] => pat.isEmpty
  | c :: rest => pat.isPrefixOf (c :: rest) || containsSeq pat rest

/-- JS s.includes(pat). -/
def jsIncludes (s pat : String) : Bool := containsSeq pat.data s.data

/-- JS s.substring(0, n) for n within bounds, i.e. the length-n prefix. -/
def jsPrefix (s : String) (n : Nat) : String := String.mk (s.data.take n)

-- ---------------------------------------------------------------------
-- Data model (src/studyBuddy.jsx: quiz response objects and local state)
-- ---------------------------------------------------------------------

/-- One question of a parsed quiz response.  The JSON field named type is
called qtype here; fields the provider may omit (options, correctAnswer,
modelAnswer) are modelled with the empty default that the rest of the app
observes, and userAnswer is the extra field handleGenerate adds. -/
structure Question where
  id : String
  qtype : String
  question : String
  options : List String
  correctAnswer : String
  modelAnswer : String
  explanation : String
  userAnswer : String
deriving DecidableEq

/-- A parsed quiz-generation response: quizTitle plus a question list
(src/studyBuddy.jsx lines 186-213, the declared response schema). -/
structure QuizData where
  quizTitle : String
  questions : List Question
deriving DecidableEq

/-- The component state of QuizGenerator (src/studyBuddy.jsx lines 496-502). -/
structure QuizState where
  quizData : Option QuizData
  currentAnswers : List (String × String)
  quizLoading : Bool
  isSubmitted : Bool
  score : Nat
  explanation : String
deriving DecidableEq

/-- A completed attempt record as passed to saveProgress
(src/studyBuddy.jsx lines 578-584).  The JSON field named type is called
qtype here. -/
structure Attempt where
  qtype : String
  score : Nat
  total : Nat
  timestamp : Nat
  quizTitle : String
deriving DecidableEq

-- ---------------------------------------------------------------------
-- Structured generation client: the retry loop of fetchQuiz and
-- fetchChatResponse (src/studyBuddy.jsx lines 218-240 and 270-299)
-- ---------------------------------------------------------------------

/-- Result of running the three-attempt loop: the value or the thrown
error, the number of attempts performed, and the backoff sleeps (in
milliseconds) that were executed between attempts, in order. -/
structure RetryResult (α : Type) where
  outcome : Except String α
  attemptsMade : Nat
  delaysMs : List Nat

/-- The loop for (let i = 0; i < budget; i++) of fetchQuiz: each attempt is
answered by the oracle (none models a throw inside the attempt: transport
failure or parse failure); on the last failed attempt a fresh error is
thrown, otherwise the loop sleeps 2 ^ i * 1000 ms and retries. -/
def retryGo {α : Type} (attempt : Nat → Option α) : Nat → Nat → RetryResult α
  | 0, _ => ⟨Except.error "no attempts", 0, []⟩
  | budget + 1, i =>
    match attempt i with
    | some v => ⟨Except.ok v, 1, []⟩
    | none =>
      if budget = 0 then
        ⟨Except.error "Failed to generate quiz after multiple retries.", 1, []⟩
      else
        let r := retryGo attempt budget (i + 1)
        ⟨r.outcome, r.attemptsMade + 1, (2 ^ i * 1000) :: r.delaysMs⟩

/-- fetchQuiz's retry behaviour (src/studyBuddy.jsx lines 218-240): three
total attempts, exponential backoff, throwing a typed error after
exhaustion.  The oracle yields the parsed JSON of a successful attempt. -/
def fetchQuizModel (attempt : Nat → Option QuizData) : RetryResult QuizData :=
  retryGo attempt 3 0

/-- A provenance entry extracted from grounding metadata: uri and title
(src/studyBuddy.jsx lines 286-289). -/
structure SourceRef where
  uri : String
  title : String
deriving DecidableEq

/-- The value fetchChatResponse resolves with: reply text plus extracted
sources (src/studyBuddy.jsx line 292). -/
structure ChatReply where
  text : String
  sources : List SourceRef
deriving DecidableEq

/-- The fixed fallback fetchChatResponse returns after its third failed
attempt (src/studyBuddy.jsx line 296). -/
def connectionTroubleReply : ChatReply :=
  ⟨"I\x27m having trouble connecting right now. Please try again later.", []⟩

/-- fetchChatResponse's retry behaviour (src/studyBuddy.jsx lines 270-299):
the same three-attempt loop, but exhaustion is absorbed into the fixed
fallback reply instead of a thrown error. -/
def fetchChatModel (attempt : Nat → Option ChatReply) : ChatReply × Nat × List Nat :=
  let r := retryGo attempt 3 0
  match r.outcome with
  | Except.ok v => (v, r.attemptsMade, r.delaysMs)
  | Except.error _ => (connectionTroubleReply, r.attemptsMade, r.delaysMs)

-- ---------------------------------------------------------------------
-- Quiz engine (src/studyBuddy.jsx lines 495-592)
-- ---------------------------------------------------------------------

/-- isQuizReady (src/studyBuddy.jsx line 504):
not loading, pdfText truthy (nonempty) and pdfText.length > 50. -/
def isQuizReady (pdfLoading : Bool) (pdfText : String) : Bool :=
  !pdfLoading && !(pdfText == "") && decide (50 < pdfText.length)

/-- The id reassignment of handleGenerate (src/studyBuddy.jsx lines
521-525): every response question gets a fresh local id (the randomUUID
supply is modelled by an injected position-indexed function) and a blank
userAnswer; all other fields are kept verbatim. -/
def withFreshIds (qs : List Question) (freshIds : Nat → String) : List Question :=
  qs.enum.map (fun p => { p.2 with id := freshIds p.1, userAnswer := "" })

/-- handleGenerate (src/studyBuddy.jsx lines 507-534) as a state
transition.  Returns the new component state together with the number of
network attempts performed.  The readiness gate returns early with no
network call; otherwise quizData, isSubmitted, score and explanation are
cleared before the fetch, and on success the response (with fresh ids)
replaces quizData and currentAnswers is reset.  On failure only the alert
is shown, so the cleared fields remain cleared. -/
def handleGenerate (s : QuizState) (pdfLoading : Bool) (pdfText : String)
    (quizType : String) (attempt : Nat → Option QuizData)
    (freshIds : Nat → String) : QuizState × Nat :=
  if isQuizReady pdfLoading pdfText then
    let cleared : QuizState :=
      { s with quizLoading := true, quizData := none, isSubmitted := false,
               score := 0, explanation := "" }
    let r := fetchQuizModel attempt
    match r.outcome with
    | Except.ok result =>
        ({ cleared with
             quizData := some { result with questions := withFreshIds result.questions freshIds },
             currentAnswers := [],
             quizLoading := false }, r.attemptsMade)
    | Except.error _ => ({ cleared with quizLoading := false }, r.attemptsMade)
  else (s, 0)

/-- Lookup in the currentAnswers object (JS dictionary access
currentAnswers[q.id]; none models undefined). -/
def lookupAnswer (answers : List (String × String)) (qid : String) : Option String :=
  (answers.find? (fun p => p.1 == qid)).map (fun p => p.2)

/-- The JS spread update of currentAnswers in handleAnswerChange:
overwrite the entry if present, else append it. -/
def setAnswer (answers : List (String × String)) (qid v : String) :
    List (String × String) :=
  if answers.any (fun p => p.1 == qid) then
    answers.map (fun p => if p.1 == qid then (qid, v) else p)
  else answers ++ [(qid, v)]

/-- handleAnswerChange (src/studyBuddy.jsx lines 536-539): rejected while
isSubmitted, otherwise records the answer. -/
def handleAnswerChange (s : QuizState) (questionId value : String) : QuizState :=
  if s.isSubmitted then s
  else { s with currentAnswers := setAnswer s.currentAnswers questionId value }

/-- Per-question correctness of handleSubmit (src/studyBuddy.jsx lines
552-562): mcq compares the selected option with correctAnswer by strict
equality; saq and laq accept any truthy answer of length greater than 5. -/
def isCorrectAnswer (q : Question) (userAnswer : Option String) : Bool :=
  if q.qtype == "mcq" then
    match userAnswer with
    | some a => a == q.correctAnswer
    | none => false
  else
    match userAnswer with
    | some a => decide (5 < a.length)
    | none => false

/-- The correctCount accumulated by the forEach of handleSubmit. -/
def computeScore (qd : QuizData) (answers : List (String × String)) : Nat :=
  qd.questions.countP (fun q => isCorrectAnswer q (lookupAnswer answers q.id))

/-- JS userAnswer || 'No Answer' (undefined and the empty string are falsy). -/
def displayChoice (ua : Option String) : String :=
  match ua with
  | some a => if a == "" then "No Answer" else a
  | none => "No Answer"

/-- JS userAnswer ? userAnswer.substring(0, 50) + '...' : 'No Answer'. -/
def displayWritten (ua : Option String) : String :=
  match ua with
  | some a => if a == "" then "No Answer" else jsPrefix a 50 ++ "..."
  | none => "No Answer"

/-- One question's block of the feedback transcript built by handleSubmit
(src/studyBuddy.jsx lines 548-571). -/
def questionFeedback (idx : Nat) (q : Question) (ua : Option String) : String :=
  let answerLines :=
    if q.qtype == "mcq" then
      "   Your Choice: " ++ displayChoice ua ++ "\n" ++
        "   Correct Choice: " ++ q.correctAnswer ++ "\n"
    else
      "   Your Answer: " ++ displayWritten ua ++ "\n" ++
        "   Model Answer: " ++
          (if q.modelAnswer == "" then "N/A" else jsPrefix q.modelAnswer 50 ++ "...") ++ "\n"
  let statusLine :=
    if isCorrectAnswer q ua then "   Status: CORRECT\n" else "   Status: INCORRECT\n"
  toString (idx + 1) ++ ". " ++ q.question ++ "\n" ++ answerLines ++ statusLine ++
    "   Explanation: " ++ q.explanation ++ "\n\n"

/-- The full feedback transcript of handleSubmit. -/
def buildFeedback (qd : QuizData) (quizType : String)
    (answers : List (String × String)) : String :=
  "Quiz: " ++ qd.quizTitle ++ " (" ++ jsToUpper quizType ++ ")\n\n" ++
    String.join (qd.questions.enum.map
      (fun p => questionFeedback p.1 p.2 (lookupAnswer answers p.2.id)))

/-- hasQuiz (src/studyBuddy.jsx line 505): quizData holds at least one question. -/
def hasQuiz (s : QuizState) : Bool :=
  match s.quizData with
  | some qd => decide (0 < qd.questions.length)
  | none => false

/-- handleSubmit (src/studyBuddy.jsx lines 541-585) as a state transition.
Returns the updated state and the list of Attempt records passed to
saveProgress (empty when the guard returns early, a single record
otherwise). -/
def handleSubmit (s : QuizState) (quizType : String) (now : Nat) :
    QuizState × List Attempt :=
  if hasQuiz s then
    match s.quizData with
    | none => (s, [])
    | some qd =>
      let correctCount := computeScore qd s.currentAnswers
      ({ s with score := correctCount,
                explanation := buildFeedback qd quizType s.currentAnswers,
                isSubmitted := true },
       [{ qtype := quizType, score := correctCount, total := qd.questions.length,
          timestamp := now, quizTitle := qd.quizTitle }])
  else (s, [])

/-- Closing the result feedback (src/studyBuddy.jsx lines 715 and 727):
both the Close Feedback button and the modal's onClose run
setIsSubmitted(false) and nothing else. -/
def closeFeedback (s : QuizState) : QuizState := { s with isSubmitted := false }

-- ---------------------------------------------------------------------
-- Context assembler: external-tool gating of fetchChatResponse
-- (src/studyBuddy.jsx lines 244-268)
-- ---------------------------------------------------------------------

/-- The recency phrases fetchChatResponse looks for in the lowercased
message (src/studyBuddy.jsx line 246). -/
def recencyPhrases : List String := ["what is the latest", "recent news"]

/-- useGoogleSearch (src/studyBuddy.jsx line 246): no document text, or the
lowercased message contains one of the two recency phrases. -/
def useGoogleSearch (pdfText currentMessage : String) : Bool :=
  pdfText == "" || jsIncludes (jsToLower currentMessage) "what is the latest"
    || jsIncludes (jsToLower currentMessage) "recent news"

/-- The tool declarations the chat payload can carry. -/
inductive GeminiTool where
  | googleSearch
deriving DecidableEq

/-- The tools field of the chat payload (src/studyBuddy.jsx line 264). -/
def chatRequestTools (pdfText currentMessage : String) : List GeminiTool :=
  if useGoogleSearch pdfText currentMessage then [GeminiTool.googleSearch] else []

/-- Modelled from the spec (comparison definition for the refinement
check, not from the source): the spec describes the recency-intent phrase
set by the examples "latest" and "recent news", so this variant enables
search when the lowercased message contains either of those phrases. -/
def useGoogleSearchClaimed (pdfText currentMessage : String) : Bool :=
  pdfText == "" ||
    ["latest", "recent news"].any (fun p => jsIncludes (jsToLower currentMessage) p)

-- ---------------------------------------------------------------------
-- Chat session manager (src/studyBuddy.jsx lines 734-779)
-- ---------------------------------------------------------------------

/-- One chat message: role, text and the sources attached to assistant
replies (src/studyBuddy.jsx lines 751 and 765; message.parts[0] is
flattened into the record). -/
structure ChatMessage where
  role : String
  text : String
  sources : List SourceRef
deriving DecidableEq

/-- One chat thread of chatList (src/studyBuddy.jsx line 735). -/
structure ChatThread where
  id : Nat
  name : String
  history : List ChatMessage
deriving DecidableEq

/-- The component state of ChatUI (src/studyBuddy.jsx lines 735-738). -/
structure ChatState where
  chatList : List ChatThread
  activeChatId : Nat
  inputMessage : String
  isTyping : Bool
deriving DecidableEq

/-- The request data handleSendMessage passes to fetchChatResponse: the
thread history from before the optimistic append, and the current input
(src/studyBuddy.jsx line 764). -/
structure SendCall where
  priorHistory : List ChatMessage
  message : String
deriving DecidableEq

/-- The outcome of the awaited fetchChatResponse call inside
handleSendMessage: it resolves with a reply, or it throws. -/
inductive SendOutcome where
  | success (reply : ChatReply)
  | failure
deriving DecidableEq

/-- activeChat (src/studyBuddy.jsx line 740): the thread whose id is
activeChatId, else the first thread, else none. -/
def activeChatOf (s : ChatState) : Option ChatThread :=
  match s.chatList.find? (fun c => c.id == s.activeChatId) with
  | some c => some c
  | none => s.chatList.head?

/-- The optimistic user message handleSendMessage appends
(src/studyBuddy.jsx line 751). -/
def userMessageOf (s : ChatState) : ChatMessage :=
  { role := "user", text := s.inputMessage, sources := [] }

/-- The chatList.map of handleSendMessage: replace the history of the
thread with the given id, leaving every other thread untouched. -/
def setThreadHistory (threads : List ChatThread) (threadId : Nat)
    (h : List ChatMessage) : List ChatThread :=
  threads.map (fun c => if c.id == threadId then { c with history := h } else c)

/-- The synchronous prefix of handleSendMessage (src/studyBuddy.jsx lines
748-761): the guard rejects a blank (all-whitespace) input or a pending
send as a no-op; otherwise the user message is appended to the active
thread, the input is cleared, the busy flag is set, and the call data for
fetchChatResponse is produced. -/
def sendStart (s : ChatState) : Option (ChatState × SendCall) :=
  if jsTrim s.inputMessage == "" || s.isTyping then none
  else
    match activeChatOf s with
    | none => none
    | some active =>
      some ({ s with
                chatList := setThreadHistory s.chatList s.activeChatId
                  (active.history ++ [userMessageOf s]),
                inputMessage := "",
                isTyping := true },
            { priorHistory := active.history, message := s.inputMessage })

/-- The fixed message appended when the awaited call throws
(src/studyBuddy.jsx line 772). -/
def fallbackErrorMessage : ChatMessage :=
  { role := "assistant", text := "Error fetching response. Try again.", sources := [] }

/-- handleSendMessage (src/studyBuddy.jsx lines 748-779) run to
completion, with the awaited call's outcome supplied by the environment:
after the synchronous prefix, the active thread's history becomes the
captured newHistory plus the assistant reply (on success) or the fixed
error message (on a throw), and the busy flag is cleared. -/
def handleSendMessage (s : ChatState) (outcome : SendOutcome) : ChatState :=
  match sendStart s, activeChatOf s with
  | some (s1, _), some active =>
    let newHistory := active.history ++ [userMessageOf s]
    let appended :=
      match outcome with
      | SendOutcome.success reply =>
          newHistory ++ [{ role := "assistant", text := reply.text, sources := reply.sources }]
      | SendOutcome.failure => newHistory ++ [fallbackErrorMessage]
    { s1 with chatList := setThreadHistory s1.chatList s.activeChatId appended,
              isTyping := false }
  | _, _ => s

/-- Read a thread's history off a thread list by id. -/
def threadHistory (threads : List ChatThread) (threadId : Nat) :
    Option (List ChatMessage) :=
  (threads.find? (fun c => c.id == threadId)).map ChatThread.history

-- ---------------------------------------------------------------------
-- Concrete fixtures used by the witnesses and counterexamples
-- ---------------------------------------------------------------------

/-- A 40-character document text. -/
def fortyCharText : String := "0123456789012345678901234567890123456789"

/-- A 50-character document text. -/
def fiftyCharText : String := "01234567890123456789012345678901234567890123456789"

/-- A 51-character document text. -/
def fiftyOneCharText : String := "012345678901234567890123456789012345678901234567890"

/-- The initial QuizGenerator state. -/
def emptyQuizState : QuizState :=
  { quizData := none, currentAnswers := [], quizLoading := false,
    isSubmitted := false, score := 0, explanation := "" }

/-- A well-formed three-question choice quiz whose canonical answers are
A, B and C. -/
def sampleMcqQuiz : QuizData :=
  ⟨"Physics Quiz",
    [⟨"q1", "mcq", "First?", ["A", "B", "C", "D"], "A", "", "e1", ""⟩,
     ⟨"q2", "mcq", "Second?", ["A", "B", "C", "D"], "B", "", "e2", ""⟩,
     ⟨"q3", "mcq", "Third?", ["A", "B", "C", "D"], "C", "", "e3", ""⟩]⟩

/-- The answer map of scoring test B: q1 answered with the canonical
choice, q2 answered wrongly, q3 left unanswered. -/
def answersB : List (String × String) := [("q1", "A"), ("q2", "wrong")]

/-- A QuizGenerator state holding sampleMcqQuiz with the answersB map. -/
def stateB : QuizState :=
  { quizData := some sampleMcqQuiz, currentAnswers := answersB,
    quizLoading := false, isSubmitted := false, score := 0, explanation := "" }

/-- An saq question used for the short-answer scoring check. -/
def shortQuestionC : Question :=
  ⟨"qs", "saq", "What is unification?", [], "", "A model answer", "expl", ""⟩

/-- A state that already holds a quiz, to observe what a failed
regeneration does to it. -/
def statePrior : QuizState :=
  { quizData := some sampleMcqQuiz, currentAnswers := [("q1", "A")],
    quizLoading := false, isSubmitted := false, score := 0, explanation := "" }

/-- A provider response of the wrong shape: a single choice question with
two options whose correctAnswer is not among them. -/
def badProviderQuiz : QuizData :=
  ⟨"Bad Shape Quiz",
    [⟨"pid", "mcq", "Capital of France?", ["London", "Berlin"], "Paris", "", "expl", ""⟩]⟩

/-- What handleGenerate stores when the provider returns badProviderQuiz
and the fresh-id supply is fun n => toString n. -/
def genBadQuiz : QuizData :=
  ⟨"Bad Shape Quiz",
    [⟨"0", "mcq", "Capital of France?", ["London", "Berlin"], "Paris", "", "expl", ""⟩]⟩

/-- A state after submit: flag set, one answer recorded. -/
def submittedState : QuizState :=
  { quizData := some sampleMcqQuiz, currentAnswers := [("q1", "A")],
    quizLoading := false, isSubmitted := true, score := 1, explanation := "done" }

/-- A chat thread with one message in its history. -/
def thread1 : ChatThread := ⟨1, "Physics Revision Chat", [⟨"user", "First question", []⟩]⟩

/-- A second, empty chat thread. -/
def thread2 : ChatThread := ⟨2, "New Chat 2", []⟩

/-- A chat state in which a send is pending (isTyping was set by a send
started from thread 1) while the user has switched to thread 2 and typed
a new message there. -/
def busyOnOtherThread : ChatState :=
  { chatList := [thread1, thread2], activeChatId := 2,
    inputMessage := "hello from thread two", isTyping := true }

/-- An idle two-thread chat state with a nonblank input. -/
def idleChatState : ChatState :=
  { chatList := [thread1, thread2], activeChatId := 1,
    inputMessage := "hi there", isTyping := false }

/-- An idle chat state whose input is only whitespace. -/
def whitespaceInputState : ChatState :=
  { chatList := [thread1], activeChatId := 1, inputMessage := "   ", isTyping := false }

-- ---------------------------------------------------------------------
-- Shared helper lemmas
-- ---------------------------------------------------------------------

/-- When every one of the three attempts fails, the retry loop performs
exactly three attempts, sleeps 1000 ms and then 2000 ms between them, and
ends with the thrown error. -/
theorem retryGo_allFail {α : Type} (attempt : Nat → Option α)
    (h : ∀ i, i < 3 → attempt i = none) :
    retryGo attempt 3 0 =
      ⟨Except.error "Failed to generate quiz after multiple retries.", 3, [1000, 2000]⟩ := by
  have h0 := h 0 (by omega)
  have h1 := h 1 (by omega)
  have h2 := h 2 (by omega)
  simp [retryGo, h0, h1, h2]

/-- The retry loop with a positive budget performs at least one attempt. -/
theorem retryGo_attempts_pos {α : Type} (attempt : Nat → Option α)
    (budget i : Nat) (hb : 0 < budget) :
    0 < (retryGo attempt budget i).attemptsMade := by
  cases budget with
  | zero => omega
  | succ b =>
    cases ha : attempt i with
    | some v => simp [retryGo, ha]
    | none =>
      by_cases hz : b = 0
      · simp [retryGo, ha, hz]
      · simp [retryGo, ha, hz]

/-- containsSeq decides the contiguous-occurrence relation. -/
theorem containsSeq_iff_infix (pat l : List Char) :
    containsSeq pat l = true ↔ pat <:+: l := by
  induction l with
  | nil =>
    simp only [containsSeq, List.isEmpty_iff, List.infix_nil]
  | cons c rest ih =>
    simp [containsSeq, ih, List.isPrefixOf_iff_prefix, List.infix_cons_iff]

/-- Reassigning ids leaves every field other than id and userAnswer
untouched, position by position. -/
theorem withFreshIds_map_field {α : Type} (qs : List Question)
    (freshIds : Nat → String) (f : Question → α)
    (hf : ∀ q i, f { q with id := i, userAnswer := "" } = f q) :
    (withFreshIds qs freshIds).map f = qs.map f := by
  unfold withFreshIds
  rw [List.map_map]
  have hcomp : (f ∘ fun p : Nat × Question =>
      { p.2 with id := freshIds p.1, userAnswer := "" }) = (f ∘ Prod.snd) := by
    funext p
    exact hf p.2 (freshIds p.1)
  rw [hcomp, ← List.map_map, List.enum_map_snd]

/-- Reassigning ids preserves the number of questions. -/
theorem withFreshIds_length (qs : List Question) (freshIds : Nat → String) :
    (withFreshIds qs freshIds).length = qs.length := by
  unfold withFreshIds
  rw [List.length_map, List.enum_length]

/-- Overwriting a thread's history and reading it back by the same id. -/
theorem threadHistory_setThreadHistory (threads : List ChatThread) (tid : Nat)
    (h : List ChatMessage)
    (hex : (threads.find? (fun c => c.id == tid)).isSome = true) :
    threadHistory (setThreadHistory threads tid h) tid = some h := by
  induction threads with
  | nil => simp [List.find?] at hex
  | cons c rest ih =>
    by_cases hc : (c.id == tid) = true
    · simp [setThreadHistory, threadHistory, List.find?, hc]
    · have hc' : (c.id == tid) = false := by
        cases hx : (c.id == tid)
        · rfl
        · exact absurd hx hc
      have hex' : (rest.find? (fun c => c.id == tid)).isSome = true := by
        rw [List.find?] at hex
        rw [hc'] at hex
        exact hex
      have := ih hex'
      simp [setThreadHistory, threadHistory, List.find?, hc'] at this ⊢
      exact this

/-- Overwriting the same thread's history twice keeps only the second
write. -/
theorem setThreadHistory_twice (threads : List ChatThread) (tid : Nat)
    (h1 h2 : List ChatMessage) :
    setThreadHistory (setThreadHistory threads tid h1) tid h2 =
      setThreadHistory threads tid h2 := by
  unfold setThreadHistory
  rw [List.map_map]
  apply List.map_congr_left
  intro c _
  by_cases hc : c.id = tid
  · simp [hc]
  · simp [hc]

-- ---------------------------------------------------------------------
-- C1: readiness gate
-- ---------------------------------------------------------------------

/-- C1 counterexample: the claim says every documentText of at least 50
characters passes the readiness gate, but isQuizReady requires strictly
more than 50 characters, so a 50-character text fails the gate and
handleGenerate returns at once with no network attempt. -/
theorem quiz_ready_at_boundary_counterexample :
    50 ≤ fiftyCharText.length ∧
    isQuizReady false fiftyCharText = false ∧
    handleGenerate emptyQuizState false fiftyCharText "mcq" (fun _ => none) (fun _ => "") =
      (emptyQuizState, 0) := by
  decide

/-- C1 (amended): with extraction not loading, documentText of length at
most 50 (in particular length 40) fails the readiness gate and
handleGenerate returns immediately, unchanged, with zero network
attempts; documentText of more than 50 characters passes the gate and
generation performs at least one network attempt. -/
theorem readiness_gate_strict (s : QuizState) (pdfText quizType : String)
    (attempt : Nat → Option QuizData) (freshIds : Nat → String) :
    (pdfText.length ≤ 50 →
      isQuizReady false pdfText = false ∧
      handleGenerate s false pdfText quizType attempt freshIds = (s, 0)) ∧
    (50 < pdfText.length →
      isQuizReady false pdfText = true ∧
      0 < (handleGenerate s false pdfText quizType attempt freshIds).2) := by
  constructor
  · intro hle
    have hd : decide (50 < pdfText.length) = false := by
      simp [Nat.not_lt.mpr hle]
    have hready : isQuizReady false pdfText = false := by
      simp [isQuizReady, hd]
    exact ⟨hready, by simp [handleGenerate, hready]⟩
  · intro hgt
    have hne : (pdfText == "") = false := by
      have hne' : pdfText ≠ "" := by
        intro he
        rw [he] at hgt
        simp at hgt
      simpa using hne'
    have hready : isQuizReady false pdfText = true := by
      simp [isQuizReady, hne, hgt]
    refine ⟨hready, ?_⟩
    have hpos : 0 < (fetchQuizModel attempt).attemptsMade :=
      retryGo_attempts_pos attempt 3 0 (by omega)
    simp only [handleGenerate, hready, if_true]
    cases hout : (fetchQuizModel attempt).outcome with
    | ok v => simpa [hout] using hpos
    | error e => simpa [hout] using hpos

/-- C1 witness: the gate fails at the 40-character text of the spec's
first test case with no network attempt, and passes at a 51-character
text. -/
theorem readiness_gate_strict_witness :
    (isQuizReady false fortyCharText = false ∧
      handleGenerate emptyQuizState false fortyCharText "mcq" (fun _ => none) (fun _ => "") =
        (emptyQuizState, 0)) ∧
    (isQuizReady false fiftyOneCharText = true ∧
      0 < (handleGenerate emptyQuizState false fiftyOneCharText "mcq" (fun _ => none) (fun _ => "")).2) :=
  ⟨(readiness_gate_strict emptyQuizState fortyCharText "mcq" (fun _ => none) (fun _ => "")).1
      (by decide),
   (readiness_gate_strict emptyQuizState fiftyOneCharText "mcq" (fun _ => none) (fun _ => "")).2
      (by decide)⟩

-- ---------------------------------------------------------------------
-- C2: state after a failed generation
-- ---------------------------------------------------------------------

/-- C2 counterexample: the claim says a failed generate leaves any
previously held QuestionSet unchanged, but handleGenerate clears quizData
before fetching, so after three failed attempts the previously held
sampleMcqQuiz is gone. -/
theorem failed_generate_clears_prior_quiz :
    statePrior.quizData = some sampleMcqQuiz ∧
    (handleGenerate statePrior false fiftyOneCharText "mcq" (fun _ => none)
        (fun _ => "fresh")).1.quizData = none := by
  decide

/-- C2 (amended): when the gate passes and all three attempts fail,
handleGenerate ends with no QuestionSet at all (the previously held one
was cleared at the start, so no partial quiz is ever shown), with the
answer map untouched, the loading and submitted flags off, and exactly
three attempts made. -/
theorem failed_generate_state (s : QuizState) (pdfText quizType : String)
    (attempt : Nat → Option QuizData) (freshIds : Nat → String)
    (hready : isQuizReady false pdfText = true)
    (hfail : ∀ i, i < 3 → attempt i = none) :
    (handleGenerate s false pdfText quizType attempt freshIds).1.quizData = none ∧
    (handleGenerate s false pdfText quizType attempt freshIds).1.currentAnswers =
      s.currentAnswers ∧
    (handleGenerate s false pdfText quizType attempt freshIds).1.quizLoading = false ∧
    (handleGenerate s false pdfText quizType attempt freshIds).1.isSubmitted = false ∧
    (handleGenerate s false pdfText quizType attempt freshIds).2 = 3 := by
  have hr : retryGo attempt 3 0 =
      ⟨Except.error "Failed to generate quiz after multiple retries.", 3, [1000, 2000]⟩ :=
    retryGo_allFail attempt hfail
  simp [handleGenerate, hready, fetchQuizModel, hr]

/-- C2 witness: the amended statement at the concrete prior state with an
always-failing transport. -/
theorem failed_generate_state_witness :
    (handleGenerate statePrior false fiftyOneCharText "mcq" (fun _ => none)
        (fun _ => "fresh")).1.quizData = none ∧
    (handleGenerate statePrior false fiftyOneCharText "mcq" (fun _ => none)
        (fun _ => "fresh")).1.currentAnswers = statePrior.currentAnswers ∧
    (handleGenerate statePrior false fiftyOneCharText "mcq" (fun _ => none)
        (fun _ => "fresh")).1.quizLoading = false ∧
    (handleGenerate statePrior false fiftyOneCharText "mcq" (fun _ => none)
        (fun _ => "fresh")).1.isSubmitted = false ∧
    (handleGenerate statePrior false fiftyOneCharText "mcq" (fun _ => none)
        (fun _ => "fresh")).2 = 3 :=
  failed_generate_state statePrior fiftyOneCharText "mcq" (fun _ => none) (fun _ => "fresh")
    (by decide) (fun _ _ => rfl)

-- ---------------------------------------------------------------------
-- C3: shape of generated QuestionSets
-- ---------------------------------------------------------------------

/-- C3 counterexample: the claim says every successfully generated choice
QuestionSet has exactly 3 questions with 4 options each and
canonicalAnswer among the options regardless of the provider's text, but
no local validation exists: a provider response with one two-option
question whose correctAnswer is not an option is stored as-is (only the
id is replaced). -/
theorem unvalidated_shape_counterexample :
    (handleGenerate emptyQuizState false fiftyOneCharText "mcq"
        (fun _ => some badProviderQuiz) (fun n => toString n)).1.quizData = some genBadQuiz ∧
    genBadQuiz.questions.map Question.qtype = ["mcq"] ∧
    genBadQuiz.questions.length = 1 ∧
    genBadQuiz.questions.map (fun q => q.options.length) = [2] ∧
    genBadQuiz.questions.map (fun q => decide (q.correctAnswer ∈ q.options)) = [false] := by
  decide

/-- C3 (amended): a successful generate stores the parsed provider
response verbatim except for freshly assigned ids and a blank userAnswer
field: the question count, kinds, prompts, options, canonical answers and
explanations of the generated QuestionSet are exactly those of the
response, so the per-kind 3-question-by-4-option (and 3 or 2 question)
shape holds exactly when the untrusted response already has it. -/
theorem generation_preserves_response_shape (s : QuizState) (pdfText quizType : String)
    (attempt : Nat → Option QuizData) (freshIds : Nat → String) (qd : QuizData)
    (hready : isQuizReady false pdfText = true)
    (hok : (fetchQuizModel attempt).outcome = Except.ok qd) :
    (handleGenerate s false pdfText quizType attempt freshIds).1.quizData =
      some { quizTitle := qd.quizTitle,
             questions := withFreshIds qd.questions freshIds } ∧
    (withFreshIds qd.questions freshIds).length = qd.questions.length ∧
    (withFreshIds qd.questions freshIds).map Question.qtype =
      qd.questions.map Question.qtype ∧
    (withFreshIds qd.questions freshIds).map Question.question =
      qd.questions.map Question.question ∧
    (withFreshIds qd.questions freshIds).map Question.options =
      qd.questions.map Question.options ∧
    (withFreshIds qd.questions freshIds).map Question.correctAnswer =
      qd.questions.map Question.correctAnswer ∧
    (withFreshIds qd.questions freshIds).map Question.explanation =
      qd.questions.map Question.explanation := by
  refine ⟨?_, withFreshIds_length _ _,
    withFreshIds_map_field _ _ _ (fun q i => rfl),
    withFreshIds_map_field _ _ _ (fun q i => rfl),
    withFreshIds_map_field _ _ _ (fun q i => rfl),
    withFreshIds_map_field _ _ _ (fun q i => rfl),
    withFreshIds_map_field _ _ _ (fun q i => rfl)⟩
  simp [handleGenerate, hready, hok]

/-- C3 witness: the amended statement applied at a well-formed concrete
response; the stored QuestionSet is the response with renumbered ids. -/
theorem generation_preserves_response_shape_witness :
    (handleGenerate emptyQuizState false fiftyOneCharText "mcq"
        (fun _ => some sampleMcqQuiz) (fun n => toString n)).1.quizData =
      some { quizTitle := sampleMcqQuiz.quizTitle,
             questions := withFreshIds sampleMcqQuiz.questions (fun n => toString n) } :=
  (generation_preserves_response_shape emptyQuizState fiftyOneCharText "mcq"
    (fun _ => some sampleMcqQuiz) (fun n => toString n) sampleMcqQuiz
    (by decide) rfl).1

-- ---------------------------------------------------------------------
-- C4: scoring rules of handleSubmit
-- ---------------------------------------------------------------------

/-- A concrete choice question used to instantiate the scoring rules. -/
def mcqFixtureQ : Question :=
  ⟨"q1", "mcq", "First?", ["A", "B", "C", "D"], "A", "", "e1", ""⟩

/-- C4: a choice question is correct exactly when the selected option
string equals the canonical answer (case-sensitive strict equality); a
short or long question is correct exactly when the answer is present,
non-empty and longer than 5 characters.  On the choice quiz with
canonical answers A, B, C and the answer map q1 mapped to A, q2 mapped to
a wrong string, q3 unanswered, submit scores 1 out of 3; and the
18-character short answer It is unification. is marked correct. -/
theorem quiz_scoring_rules :
    (∀ (q : Question) (ua : Option String), q.qtype = "mcq" →
      (isCorrectAnswer q ua = true ↔ ua = some q.correctAnswer)) ∧
    (∀ (q : Question) (ua : Option String), q.qtype ≠ "mcq" →
      (isCorrectAnswer q ua = true ↔ ∃ a, ua = some a ∧ a ≠ "" ∧ 5 < a.length)) ∧
    (handleSubmit stateB "mcq" 0).1.score = 1 ∧
    (handleSubmit stateB "mcq" 0).2.map Attempt.score = [1] ∧
    (handleSubmit stateB "mcq" 0).2.map Attempt.total = [3] ∧
    isCorrectAnswer shortQuestionC (some "It is unification.") = true ∧
    "It is unification.".length = 18 := by
  refine ⟨?_, ?_, by decide, by decide, by decide, by decide, by decide⟩
  · intro q ua hq
    have hq' : (q.qtype == "mcq") = true := by simp [hq]
    cases ua with
    | none => simp [isCorrectAnswer, hq']
    | some a => simp [isCorrectAnswer, hq']
  · intro q ua hq
    have hq' : (q.qtype == "mcq") = false := by simp [hq]
    cases ua with
    | none => simp [isCorrectAnswer, hq']
    | some a =>
      simp [isCorrectAnswer, hq']
      intro hlen he
      subst he
      simp at hlen

/-- C4 witness: the two scoring rules instantiated at concrete questions
and answers. -/
theorem quiz_scoring_rules_witness :
    (isCorrectAnswer mcqFixtureQ (some "A") = true ↔
      (some "A" : Option String) = some mcqFixtureQ.correctAnswer) ∧
    (isCorrectAnswer shortQuestionC (some "short!") = true ↔
      ∃ a, (some "short!" : Option String) = some a ∧ a ≠ "" ∧ 5 < a.length) :=
  ⟨quiz_scoring_rules.1 mcqFixtureQ (some "A") rfl,
   quiz_scoring_rules.2.1 shortQuestionC (some "short!") (by decide)⟩

-- ---------------------------------------------------------------------
-- C5: retry budget and backoff
-- ---------------------------------------------------------------------

/-- C5: when all attempts fail, the quiz fetch performs exactly three
attempts, sleeps according to the 2 ^ i seconds schedule (1000 ms then
2000 ms, hence at least 3 cumulative seconds of backoff before the final
attempt), and ends in the typed error rather than a success; the chat
fetch under the same conditions performs the same three attempts and the
same backoff and resolves with the fixed fallback reply instead of
throwing past the boundary. -/
theorem retry_exhaustion_behavior (attempt : Nat → Option QuizData)
    (chatAttempt : Nat → Option ChatReply)
    (hq : ∀ i, i < 3 → attempt i = none)
    (hc : ∀ i, i < 3 → chatAttempt i = none) :
    (fetchQuizModel attempt).outcome =
      Except.error "Failed to generate quiz after multiple retries." ∧
    (fetchQuizModel attempt).attemptsMade = 3 ∧
    (fetchQuizModel attempt).delaysMs = [1000, 2000] ∧
    ((fetchQuizModel attempt).delaysMs).sum = 3000 ∧
    (fetchQuizModel attempt).delaysMs =
      (List.range ((fetchQuizModel attempt).attemptsMade - 1)).map
        (fun i => 2 ^ i * 1000) ∧
    (fetchChatModel chatAttempt).1 = connectionTroubleReply ∧
    (fetchChatModel chatAttempt).2.1 = 3 ∧
    (fetchChatModel chatAttempt).2.2 = [1000, 2000] := by
  have hr : retryGo attempt 3 0 =
      ⟨Except.error "Failed to generate quiz after multiple retries.", 3, [1000, 2000]⟩ :=
    retryGo_allFail attempt hq
  have hrc : retryGo chatAttempt 3 0 =
      ⟨Except.error "Failed to generate quiz after multiple retries.", 3, [1000, 2000]⟩ :=
    retryGo_allFail chatAttempt hc
  refine ⟨by simp [fetchQuizModel, hr], by simp [fetchQuizModel, hr],
    by simp [fetchQuizModel, hr], by simp [fetchQuizModel, hr],
    by simp [fetchQuizModel, hr]; decide,
    by simp [fetchChatModel, hrc], by simp [fetchChatModel, hrc],
    by simp [fetchChatModel, hrc]⟩

/-- C5 witness: the exhaustion behaviour at the concrete always-failing
oracles. -/
theorem retry_exhaustion_behavior_witness :
    (fetchQuizModel (fun _ => none)).outcome =
      Except.error "Failed to generate quiz after multiple retries." ∧
    (fetchQuizModel (fun _ => none)).attemptsMade = 3 ∧
    (fetchQuizModel (fun _ => none)).delaysMs = [1000, 2000] ∧
    ((fetchQuizModel (fun _ => none)).delaysMs).sum = 3000 ∧
    (fetchQuizModel (fun _ => none)).delaysMs =
      (List.range ((fetchQuizModel (fun _ => none)).attemptsMade - 1)).map
        (fun i => 2 ^ i * 1000) ∧
    (fetchChatModel (fun _ => none)).1 = connectionTroubleReply ∧
    (fetchChatModel (fun _ => none)).2.1 = 3 ∧
    (fetchChatModel (fun _ => none)).2.2 = [1000, 2000] :=
  retry_exhaustion_behavior (fun _ => none) (fun _ => none)
    (fun _ _ => rfl) (fun _ _ => rfl)

-- ---------------------------------------------------------------------
-- C6: the busy gate of handleSendMessage
-- ---------------------------------------------------------------------

/-- C6 counterexample: the claim says independent threads may be
concurrently in flight, but ChatUI has a single isTyping flag for all
threads: in busyOnOtherThread a send is pending (the flag was set by a
send started from thread 1) and the user has switched to thread 2 with a
nonblank input, yet starting a send there is a no-op. -/
theorem second_thread_send_blocked :
    busyOnOtherThread.isTyping = true ∧
    busyOnOtherThread.activeChatId = 2 ∧
    jsTrim busyOnOtherThread.inputMessage ≠ "" ∧
    sendStart busyOnOtherThread = none ∧
    handleSendMessage busyOnOtherThread (SendOutcome.success ⟨"reply", []⟩) =
      busyOnOtherThread := by
  decide

/-- C6 (amended): at most one send is in flight across the whole chat
component, not per thread: while isTyping is set, a send on any thread
(the pending one or an independent one) is rejected as a no-op, and a
send can only start when the single flag is clear, setting it again —
so two threads are never concurrently in flight. -/
theorem single_flight_global_busy_flag (s : ChatState) :
    (s.isTyping = true →
      sendStart s = none ∧
      handleSendMessage s SendOutcome.failure = s ∧
      ∀ reply, handleSendMessage s (SendOutcome.success reply) = s) ∧
    (∀ s1 call, sendStart s = some (s1, call) →
      s.isTyping = false ∧ s1.isTyping = true) := by
  constructor
  · intro h
    have hcond : (jsTrim s.inputMessage == "" || s.isTyping) = true := by simp [h]
    refine ⟨by simp [sendStart, hcond], ?_, ?_⟩
    · simp [handleSendMessage, sendStart, hcond]
    · intro reply
      simp [handleSendMessage, sendStart, hcond]
  · intro s1 call h
    cases ht : s.isTyping with
    | true =>
      exfalso
      have hcond : (jsTrim s.inputMessage == "" || s.isTyping) = true := by simp [ht]
      simp [sendStart, hcond] at h
    | false =>
      refine ⟨rfl, ?_⟩
      cases hb : (jsTrim s.inputMessage == "") with
      | true =>
        exfalso
        have hcond : (jsTrim s.inputMessage == "" || s.isTyping) = true := by simp [hb]
        simp [sendStart, hcond] at h
      | false =>
        have hcond : (jsTrim s.inputMessage == "" || s.isTyping) = false := by
          simp [hb, ht]
        cases hao : activeChatOf s with
        | none => simp [sendStart, hcond, hao] at h
        | some active =>
          simp [sendStart, hcond, hao] at h
          obtain ⟨h1, h2⟩ := h
          rw [← h1]

/-- C6 witness: the amended statement applied at the concrete busy state. -/
theorem single_flight_global_busy_flag_witness :
    sendStart busyOnOtherThread = none ∧
    handleSendMessage busyOnOtherThread SendOutcome.failure = busyOnOtherThread :=
  ⟨((single_flight_global_busy_flag busyOnOtherThread).1 rfl).1,
   ((single_flight_global_busy_flag busyOnOtherThread).1 rfl).2.1⟩

-- ---------------------------------------------------------------------
-- C7: what a send appends in each outcome
-- ---------------------------------------------------------------------

/-- C7: when the guard passes, the user message is appended to the active
thread synchronously, before the generation call (the call itself only
receives the prior history and the input); on success the assistant
reply with its sources is appended after it, and on a thrown failure the
fixed error message is appended after it — in every outcome the history
is the old history plus the user message plus exactly one assistant
message, so the user message is never discarded. -/
theorem send_appends_messages (s : ChatState) (active : ChatThread) (reply : ChatReply)
    (hactive : s.chatList.find? (fun c => c.id == s.activeChatId) = some active)
    (hinput : (jsTrim s.inputMessage == "") = false)
    (hidle : s.isTyping = false) :
    (∃ s1 call, sendStart s = some (s1, call) ∧
      threadHistory s1.chatList s.activeChatId =
        some (active.history ++ [userMessageOf s]) ∧
      call.priorHistory = active.history ∧ call.message = s.inputMessage) ∧
    threadHistory (handleSendMessage s (SendOutcome.success reply)).chatList
        s.activeChatId =
      some (active.history ++ [userMessageOf s,
        { role := "assistant", text := reply.text, sources := reply.sources }]) ∧
    threadHistory (handleSendMessage s SendOutcome.failure).chatList s.activeChatId =
      some (active.history ++ [userMessageOf s, fallbackErrorMessage]) := by
  have hcond : (jsTrim s.inputMessage == "" || s.isTyping) = false := by
    simp [hinput, hidle]
  have hao : activeChatOf s = some active := by
    simp [activeChatOf, hactive]
  have hex : (s.chatList.find? (fun c => c.id == s.activeChatId)).isSome = true := by
    simp [hactive]
  have hstart : sendStart s = some
      (({ s with
            chatList := setThreadHistory s.chatList s.activeChatId
              (active.history ++ [userMessageOf s]),
            inputMessage := "",
            isTyping := true } : ChatState),
       ({ priorHistory := active.history, message := s.inputMessage } : SendCall)) := by
    simp [sendStart, hcond, hao]
  refine ⟨⟨_, _, hstart, ?_, rfl, rfl⟩, ?_, ?_⟩
  · exact threadHistory_setThreadHistory _ _ _ hex
  · simp only [handleSendMessage, hstart, hao]
    rw [setThreadHistory_twice, threadHistory_setThreadHistory _ _ _ hex]
    simp
  · simp only [handleSendMessage, hstart, hao]
    rw [setThreadHistory_twice, threadHistory_setThreadHistory _ _ _ hex]
    simp

/-- C7 witness: the append behaviour at a concrete idle state, for a
concrete successful reply and for a thrown failure. -/
theorem send_appends_messages_witness :
    threadHistory (handleSendMessage idleChatState
        (SendOutcome.success ⟨"According to the text, unification is one thrust.", []⟩)).chatList
        idleChatState.activeChatId =
      some (thread1.history ++ [userMessageOf idleChatState,
        { role := "assistant",
          text := "According to the text, unification is one thrust.",
          sources := [] }]) ∧
    threadHistory (handleSendMessage idleChatState SendOutcome.failure).chatList
        idleChatState.activeChatId =
      some (thread1.history ++ [userMessageOf idleChatState, fallbackErrorMessage]) :=
  ⟨(send_appends_messages idleChatState thread1
      ⟨"According to the text, unification is one thrust.", []⟩
      (by decide) (by decide) rfl).2.1,
   (send_appends_messages idleChatState thread1
      ⟨"According to the text, unification is one thrust.", []⟩
      (by decide) (by decide) rfl).2.2⟩

-- ---------------------------------------------------------------------
-- C8: terminality of submit
-- ---------------------------------------------------------------------

/-- C8 counterexample: the claim says only a new generate resets the
submitted state, but closing the result feedback also clears it: in the
submitted state an edit is rejected, yet after closeFeedback (which
leaves the same QuestionSet in place — no generate happened) the same
edit is accepted. -/
theorem close_feedback_reopens_edits :
    handleAnswerChange submittedState "q1" "B" = submittedState ∧
    (closeFeedback submittedState).quizData = submittedState.quizData ∧
    (closeFeedback submittedState).isSubmitted = false ∧
    (handleAnswerChange (closeFeedback submittedState) "q1" "B").currentAnswers =
      [("q1", "B")] ∧
    ([("q1", "B")] : List (String × String)) ≠ submittedState.currentAnswers := by
  decide

/-- C8 (amended): while the submitted flag is set every answer edit is
rejected, and a submit on a held quiz emits exactly one completed Attempt
and sets the flag; but the flag is cleared not only by a new generate —
closing the result feedback clears it too, re-enabling edits on the same
QuestionSet. -/
theorem submit_terminal_until_reset (s : QuizState) (qid v quizType pdfText : String)
    (now : Nat) (qd : QuizData)
    (attempt : Nat → Option QuizData) (freshIds : Nat → String)
    (hsub : s.isSubmitted = true) (hqd : s.quizData = some qd)
    (hne : qd.questions ≠ []) :
    handleAnswerChange s qid v = s ∧
    (closeFeedback s).isSubmitted = false ∧
    (closeFeedback s).quizData = s.quizData ∧
    (handleSubmit s quizType now).2.length = 1 ∧
    (handleSubmit s quizType now).1.isSubmitted = true ∧
    (isQuizReady false pdfText = true →
      (handleGenerate s false pdfText quizType attempt freshIds).1.isSubmitted = false) := by
  have hhas : hasQuiz s = true := by
    have hlen : 0 < qd.questions.length := List.length_pos.mpr hne
    simp [hasQuiz, hqd, hlen]
  refine ⟨by simp [handleAnswerChange, hsub], rfl, rfl, ?_, ?_, ?_⟩
  · simp [handleSubmit, hhas, hqd]
  · simp [handleSubmit, hhas, hqd]
  · intro hready
    simp only [handleGenerate, hready, if_true]
    cases hout : (fetchQuizModel attempt).outcome with
    | ok v2 => simp [hout]
    | error e => simp [hout]

/-- C8 witness: the amended statement at the concrete submitted state. -/
theorem submit_terminal_until_reset_witness :
    handleAnswerChange submittedState "q3" "C" = submittedState ∧
    (closeFeedback submittedState).isSubmitted = false ∧
    (closeFeedback submittedState).quizData = submittedState.quizData ∧
    (handleSubmit submittedState "mcq" 7).2.length = 1 ∧
    (handleSubmit submittedState "mcq" 7).1.isSubmitted = true ∧
    (isQuizReady false fiftyOneCharText = true →
      (handleGenerate submittedState false fiftyOneCharText "mcq" (fun _ => none)
        (fun _ => "")).1.isSubmitted = false) :=
  submit_terminal_until_reset submittedState "q3" "C" "mcq" fiftyOneCharText 7
    sampleMcqQuiz (fun _ => none) (fun _ => "") rfl rfl (by decide)

-- ---------------------------------------------------------------------
-- C9: external-tool gating
-- ---------------------------------------------------------------------

/-- C9 counterexample: the claim presents "latest" as a member of the
recency phrase set, but the source only matches "what is the latest" and
"recent news": with document context present, the message latest enables
no external tool, while the claim-side definition enables it. -/
theorem latest_phrase_counterexample :
    useGoogleSearch "Physics is a basic science." "latest" = false ∧
    useGoogleSearchClaimed "Physics is a basic science." "latest" = true ∧
    chatRequestTools "Physics is a basic science." "latest" = [] := by
  decide

/-- C9 (amended): the chat request carries the external search tool
exactly when no document text exists or the lowercased current message
contains one of the two fixed phrases what is the latest or recent news;
in every other case the tools list is empty. -/
theorem external_tool_gating (pdfText msg : String) :
    GeminiTool.googleSearch ∈ chatRequestTools pdfText msg ↔
      pdfText = "" ∨ "what is the latest".data <:+: (jsToLower msg).data ∨
        "recent news".data <:+: (jsToLower msg).data := by
  have huse : useGoogleSearch pdfText msg = true ↔
      pdfText = "" ∨ "what is the latest".data <:+: (jsToLower msg).data ∨
        "recent news".data <:+: (jsToLower msg).data := by
    simp [useGoogleSearch, jsIncludes, containsSeq_iff_infix, Bool.or_eq_true, or_assoc]
  rw [← huse]
  unfold chatRequestTools
  cases hu : useGoogleSearch pdfText msg with
  | true => simp
  | false => simp

-- ---------------------------------------------------------------------
-- C10: blank input sends are no-ops
-- ---------------------------------------------------------------------

/-- C10: a send whose input trims to the empty string is rejected by the
guard: no call data is produced (no generation request) and the state —
in particular every thread's history — is left unchanged, whatever the
environment would have answered. -/
theorem blank_send_is_noop (s : ChatState) (outcome : SendOutcome)
    (hblank : jsTrim s.inputMessage = "") :
    sendStart s = none ∧ handleSendMessage s outcome = s := by
  have hcond : (jsTrim s.inputMessage == "" || s.isTyping) = true := by
    simp [hblank]
  exact ⟨by simp [sendStart, hcond], by simp [handleSendMessage, sendStart, hcond]⟩

/-- C10 witness: the no-op at a concrete idle state whose input is three
spaces. -/
theorem blank_send_is_noop_witness :
    sendStart whitespaceInputState = none ∧
    handleSendMessage whitespaceInputState SendOutcome.failure = whitespaceInputState :=
  blank_send_is_noop whitespaceInputState SendOutcome.failure (by decide)
